import Mathlib

/-!
# Verification of the rail-chatbot-backend core

Shallow embedding of the chat backend's core components, translated from
the Python source:

* `app/models.py`    — shared value types (roles, chat messages, tool calls,
  MCP tool descriptors/results, orchestrator events);
* `app/orchestrator.py` — `ChatOrchestrator.process_message`, the bounded
  tool-calling loop that interleaves LLM turns and MCP tool invocations and
  yields a stream of `OrchestratorEvent`s;
* `app/mcp_client.py` — `McpClient`, a JSON-RPC 2.0 client with an
  initialization handshake, a tool-list cache and argument coercion;
* `app/llm_client.py` — the classification of a provider reply into
  text / tool-calls / error.

External collaborators (the LLM provider, the remote MCP server, the HTTP
transport and the standard-library JSON decoder) are modelled as explicit
oracle parameters: a function describing how the outside world answers each
interaction.  Quantifying theorems over these oracles quantifies over the
possible runs of the program.
-/

/-! ## Data model (`app/models.py`) -/

/-- `MessageRole` — role of a message in the conversation. -/
inductive MessageRole
  | user
  | assistant
  | system
  | tool
deriving DecidableEq, Repr

/-- Argument values appearing in a tool-call argument mapping
(`dict[str, Any]` in the source).  The cases cover the JSON scalar values
the protocol and the spec exercise; `pyStr` gives each one the textual
representation Python's `str` would. -/
inductive ArgValue
  | str (s : String)
  | int (n : Int)
  | bool (b : Bool)
  | null
deriving DecidableEq, Repr

/-- Python's `str(v)` on an argument value. -/
def pyStr : ArgValue → String
  | .str s => s
  | .int n => toString n
  | .bool b => if b then "True" else "False"
  | .null => "None"

/-- An argument mapping, `dict[str, Any]` in the source. -/
abbrev ArgMap := List (String × ArgValue)

/-- JSON object schemas (`inputSchema` / `input_schema`) are carried
opaquely by the client — the core never inspects their contents — so they
are modelled as flat key/value objects. -/
abbrev Schema := List (String × ArgValue)

/-- `ToolCall` — a tool call made by the LLM. -/
structure ToolCall where
  id : String
  name : String
  arguments : ArgMap
deriving DecidableEq, Repr

/-- `ChatMessage` — a message in the conversation. -/
structure ChatMessage where
  role : MessageRole
  content : String
  tool_call_id : Option String := none
  tool_calls : Option (List ToolCall) := none
deriving DecidableEq, Repr

/-- `McpTool` — a tool available from the MCP server. -/
structure McpTool where
  name : String
  description : Option String := none
  input_schema : Option Schema := none
deriving DecidableEq, Repr

/-- `McpContent` — one content part returned from an MCP tool call. -/
structure McpContent where
  type : String
  text : Option String := none
deriving DecidableEq, Repr

/-- `McpToolResult` — result of an MCP tool call. -/
structure McpToolResult where
  content : List McpContent
  is_error : Bool := false
deriving DecidableEq, Repr

/-- `EventType` — types of events sent to the client. -/
inductive EventType
  | thinking
  | toolStart
  | toolComplete
  | toolError
  | response
  | error
  | done
deriving DecidableEq, Repr

/-- `OrchestratorEvent` — event sent to the client during chat processing. -/
structure OrchestratorEvent where
  type : EventType
  text : Option String := none
  name : Option String := none
  args : Option ArgMap := none
  result : Option String := none
deriving DecidableEq, Repr

/-! ## LLM responses (`app/llm_client.py`)

The source models `LlmResponse` as a class hierarchy
`TextResponse / ToolCallsResponse / LlmError`; it is a closed tagged union,
embedded as an inductive type. -/

/-- Response from the LLM: final text, requested tool calls, or an error. -/
inductive LlmResponse
  | textResponse (text : String)
  | toolCallsResponse (tool_calls : List ToolCall)
  | llmError (message : String)
deriving DecidableEq, Repr

/-! ## The orchestrator (`app/orchestrator.py`)

`process_message` is an async generator whose only interactions with the
outside world are: one combined `initialize` + `list_tools` step on the MCP
client (which either raises or produces the tool catalogue), one
`llm_client.chat` call per loop iteration (total in the source: every
provider failure is caught inside `chat` and returned as `LlmError`), and
one `mcp_client.call_tool` call per requested tool call (which either
returns an `McpToolResult` or raises).  `Env` packages these three
interactions as oracles.  The oracles receive the conversation sent so far
purely as an index of nondeterminism (the source sends only
name/arguments to `call_tool`); since the conversation strictly grows
during a run, this lets an environment choose a different answer at every
interaction point, covering all runs. -/

/-- The outside world as seen by one `process_message` run. -/
structure Env where
  /-- Combined outcome of `mcp_client.initialize()` and
  `mcp_client.list_tools()` at the start of a run: either the raised
  exception's text, or the tool catalogue. -/
  initResult : Except String (List McpTool)
  /-- `llm_client.chat(messages, tools)` — total, never raises. -/
  llmChat : List ChatMessage → List McpTool → LlmResponse
  /-- `mcp_client.call_tool(name, arguments)` — the first argument is the
  conversation at the moment of the call (nondeterminism index only);
  `Except.error` models a raised exception, with the exception's text. -/
  callTool : List ChatMessage → String → ArgMap → Except String McpToolResult

/-- `MAX_TOOL_ITERATIONS` — orchestrator.py line 22; a fixed module-level
constant, not caller-configurable (`process_message` takes no cap
parameter). -/
def MAX_TOOL_ITERATIONS : Nat := 10

/-- The `thinking` event emitted at the top of `process_message`. -/
def thinkingEvent : OrchestratorEvent :=
  { type := .thinking, text := some "Analyzing your request..." }

/-- An `error` event with the given text. -/
def errorEvent (t : String) : OrchestratorEvent :=
  { type := .error, text := some t }

/-- A `response` event with the final text. -/
def responseEvent (t : String) : OrchestratorEvent :=
  { type := .response, text := some t }

/-- The `done` event. -/
def doneEvent : OrchestratorEvent :=
  { type := .done }

/-- The `tool_start` event for one requested call (name + arguments). -/
def toolStartEvent (c : ToolCall) : OrchestratorEvent :=
  { type := .toolStart, name := some c.name, args := some c.arguments }

/-- The `tool_complete` event (name + flattened result). -/
def toolCompleteEvent (n r : String) : OrchestratorEvent :=
  { type := .toolComplete, name := some n, result := some r }

/-- The `tool_error` event (name + result/error text). -/
def toolErrorEvent (n r : String) : OrchestratorEvent :=
  { type := .toolError, name := some n, result := some r }

/-- The user turn appended at orchestrator.py lines 71-73. -/
def userMessageTurn (u : String) : ChatMessage :=
  { role := .user, content := u }

/-- The assistant turn recording requested tool calls (lines 104-118);
content is empty, `tool_calls` is populated.  (The source converts each
`LlmToolCall` to a `ToolCall` field-by-field; in the embedding both are
the same type.) -/
def assistantToolCallMsg (cs : List ToolCall) : ChatMessage :=
  { role := .assistant, content := "", tool_calls := some cs }

/-- The tool-role turn appended for one resolved call (lines 153-159 /
172-178): flattened result text plus the originating call's id. -/
def toolResultMsg (content : String) (callId : String) : ChatMessage :=
  { role := .tool, content := content, tool_call_id := some callId }

/-- orchestrator.py lines 135-137:
`result_text = "\n".join(c.text for c in result.content if c.text)` —
Python truthiness drops both absent (`None`) and empty-string text parts
before joining with newline. -/
def resultText (content : List McpContent) : String :=
  String.intercalate "\n"
    ((content.filterMap McpContent.text).filter (fun t => t ≠ ""))

/-- The flattened string produced by one tool call: lines 134-137 on a
returned result, line 162 (`"Tool execution failed: <cause>"`) on a raised
exception. -/
def completionText : Except String McpToolResult → String
  | .ok r => resultText r.content
  | .error e => "Tool execution failed: " ++ e

/-- The event closing one tool call: `tool_error` if the result carries
`is_error` or the call raised, `tool_complete` otherwise (lines 139-150 /
165-169). -/
def completionEvent (n : String) : Except String McpToolResult → OrchestratorEvent
  | .ok r =>
      if r.is_error then toolErrorEvent n (resultText r.content)
      else toolCompleteEvent n (resultText r.content)
  | .error e => toolErrorEvent n ("Tool execution failed: " ++ e)

/-- One iteration of the `for tool_call in llm_response.tool_calls` body
(orchestrator.py lines 121-178): emit `tool_start`, invoke the tool,
emit the completion event, append the tool-role turn. -/
def execOneCall (env : Env) (c : ToolCall) (ms : List ChatMessage) :
    List OrchestratorEvent × List ChatMessage :=
  ([toolStartEvent c,
    completionEvent c.name (env.callTool ms c.name c.arguments)],
   ms ++ [toolResultMsg
      (completionText (env.callTool ms c.name c.arguments)) c.id])

/-- The whole `for` loop over one batch of requested calls, sequentially,
in the order the LLM produced them. -/
def execCalls (env : Env) (cs : List ToolCall) (ms : List ChatMessage) :
    List OrchestratorEvent × List ChatMessage :=
  match cs with
  | [] => ([], ms)
  | c :: rest =>
      let step := execOneCall env c ms
      let restRun := execCalls env rest step.2
      (step.1 ++ restRun.1, restRun.2)

/-- The `while iterations < MAX_TOOL_ITERATIONS` loop (orchestrator.py
lines 76-184), with the remaining iteration budget as fuel: fuel `0`
models the loop guard failing, after which the "Maximum tool iterations
reached" error event is emitted (lines 180-184). -/
def runLoop (env : Env) (tools : List McpTool) :
    Nat → List ChatMessage → List OrchestratorEvent
  | 0, _ => [errorEvent "Maximum tool iterations reached. Please try again."]
  | fuel + 1, ms =>
      match env.llmChat ms tools with
      | .llmError m => [errorEvent ("AI error: " ++ m)]
      | .textResponse t => [responseEvent t, doneEvent]
      | .toolCallsResponse cs =>
          let batch := execCalls env cs (ms ++ [assistantToolCallMsg cs])
          batch.1 ++ runLoop env tools fuel batch.2

/-- `ChatOrchestrator.process_message(user_message, history)` as the list
of events it yields: emit `thinking`; initialize and fetch tools (a raise
here reaches the outermost `except` and becomes a single
`"An error occurred: ..."` event); seed the working conversation from the
history plus the user turn; run the bounded loop. -/
def processMessage (env : Env) (u : String) (history : List ChatMessage) :
    List OrchestratorEvent :=
  match env.initResult with
  | .error e => [thinkingEvent, errorEvent ("An error occurred: " ++ e)]
  | .ok tools =>
      thinkingEvent ::
        runLoop env tools MAX_TOOL_ITERATIONS (history ++ [userMessageTurn u])

/-- Instrumented mirror of `runLoop` counting loop iterations — each
iteration performs exactly one `llm_client.chat` call, so this is also the
number of LLM calls a run makes. -/
def runLoopIters (env : Env) (tools : List McpTool) :
    Nat → List ChatMessage → Nat
  | 0, _ => 0
  | fuel + 1, ms =>
      match env.llmChat ms tools with
      | .llmError _ => 1
      | .textResponse _ => 1
      | .toolCallsResponse cs =>
          let batch := execCalls env cs (ms ++ [assistantToolCallMsg cs])
          1 + runLoopIters env tools fuel batch.2

/-! ### Shape of an emitted event sequence -/

/-- Events that are neither terminal (`done`/`error`) nor `response`:
everything a run may emit before its closing events. -/
def progressEvent (e : OrchestratorEvent) : Bool :=
  match e.type with
  | .thinking | .toolStart | .toolComplete | .toolError => true
  | .response | .error | .done => false

/-- A run decomposes as progress events followed by either `response, done`
or a single `error`: exactly one terminal event, nothing after it, `done`
only immediately after a `response`, at most one `response`, at most one
`error`, never both terminals. -/
def cleanTermination (es : List OrchestratorEvent) : Prop :=
  ∃ pre,
    (∀ e ∈ pre, progressEvent e = true) ∧
    ((∃ r d, es = pre ++ [r, d] ∧
        r.type = EventType.response ∧ d.type = EventType.done) ∨
     (∃ t, es = pre ++ [t] ∧ t.type = EventType.error))

/-! ### Equation lemmas for the loop -/

theorem runLoop_zero (env : Env) (tools : List McpTool)
    (ms : List ChatMessage) :
    runLoop env tools 0 ms =
      [errorEvent "Maximum tool iterations reached. Please try again."] := rfl

theorem runLoop_succ_llmError (env : Env) (tools : List McpTool) (f : Nat)
    (ms : List ChatMessage) (m : String)
    (h : env.llmChat ms tools = .llmError m) :
    runLoop env tools (f + 1) ms = [errorEvent ("AI error: " ++ m)] := by
  simp [runLoop, h]

theorem runLoop_succ_text (env : Env) (tools : List McpTool) (f : Nat)
    (ms : List ChatMessage) (t : String)
    (h : env.llmChat ms tools = .textResponse t) :
    runLoop env tools (f + 1) ms = [responseEvent t, doneEvent] := by
  simp [runLoop, h]

theorem runLoop_succ_toolCalls (env : Env) (tools : List McpTool) (f : Nat)
    (ms : List ChatMessage) (cs : List ToolCall)
    (h : env.llmChat ms tools = .toolCallsResponse cs) :
    runLoop env tools (f + 1) ms =
      (execCalls env cs (ms ++ [assistantToolCallMsg cs])).1 ++
        runLoop env tools f
          (execCalls env cs (ms ++ [assistantToolCallMsg cs])).2 := by
  simp [runLoop, h]

theorem processMessage_initError (env : Env) (u : String)
    (history : List ChatMessage) (e : String)
    (h : env.initResult = .error e) :
    processMessage env u history =
      [thinkingEvent, errorEvent ("An error occurred: " ++ e)] := by
  simp [processMessage, h]

theorem processMessage_initOk (env : Env) (u : String)
    (history : List ChatMessage) (tools : List McpTool)
    (h : env.initResult = .ok tools) :
    processMessage env u history =
      thinkingEvent ::
        runLoop env tools MAX_TOOL_ITERATIONS
          (history ++ [userMessageTurn u]) := by
  simp [processMessage, h]

/-- Both events of one executed tool call are progress events. -/
theorem execOneCall_progress (env : Env) (c : ToolCall)
    (ms : List ChatMessage) :
    ∀ e ∈ (execOneCall env c ms).1, progressEvent e = true := by
  intro e he
  simp only [execOneCall, List.mem_cons, List.not_mem_nil, or_false] at he
  rcases he with rfl | rfl
  · rfl
  · unfold completionEvent
    cases env.callTool ms c.name c.arguments with
    | ok r =>
        by_cases hr : r.is_error
        · simp [hr, toolErrorEvent, progressEvent]
        · simp [hr, toolCompleteEvent, progressEvent]
    | error msg => rfl

/-- Every event a tool-call batch emits is a progress event
(`tool_start`, `tool_complete` or `tool_error`). -/
theorem execCalls_progress (env : Env) :
    ∀ (cs : List ToolCall) (ms : List ChatMessage),
      ∀ e ∈ (execCalls env cs ms).1, progressEvent e = true := by
  intro cs
  induction cs with
  | nil => intro ms e he; simp [execCalls] at he
  | cons c rest ih =>
      intro ms e he
      rw [show execCalls env (c :: rest) ms =
        ((execOneCall env c ms).1 ++
          (execCalls env rest (execOneCall env c ms).2).1,
         (execCalls env rest (execOneCall env c ms).2).2) from rfl] at he
      rcases List.mem_append.mp he with he | he
      · exact execOneCall_progress env c ms e he
      · exact ih _ e he

/-- The bounded loop always ends in `response, done` or a single `error`,
preceded only by progress events. -/
theorem runLoop_cleanTermination (env : Env) (tools : List McpTool) :
    ∀ (fuel : Nat) (ms : List ChatMessage),
      cleanTermination (runLoop env tools fuel ms) := by
  intro fuel
  induction fuel with
  | zero =>
      intro ms
      rw [runLoop_zero]
      exact ⟨[], by simp,
        Or.inr ⟨errorEvent "Maximum tool iterations reached. Please try again.",
          by simp, rfl⟩⟩
  | succ f ih =>
      intro ms
      cases h : env.llmChat ms tools with
      | llmError m =>
          rw [runLoop_succ_llmError env tools f ms m h]
          exact ⟨[], by simp, Or.inr ⟨errorEvent ("AI error: " ++ m), by simp, rfl⟩⟩
      | textResponse t =>
          rw [runLoop_succ_text env tools f ms t h]
          exact ⟨[], by simp,
            Or.inl ⟨responseEvent t, doneEvent, by simp, rfl, rfl⟩⟩
      | toolCallsResponse cs =>
          rw [runLoop_succ_toolCalls env tools f ms cs h]
          obtain ⟨pre, hpre, hshape⟩ :=
            ih (execCalls env cs (ms ++ [assistantToolCallMsg cs])).2
          refine ⟨(execCalls env cs (ms ++ [assistantToolCallMsg cs])).1 ++ pre,
            ?_, ?_⟩
          · intro e he
            rcases List.mem_append.mp he with he | he
            · exact execCalls_progress env cs _ e he
            · exact hpre e he
          · rcases hshape with ⟨r, d, heq, hr, hd⟩ | ⟨t, heq, ht⟩
            · exact Or.inl ⟨r, d, by rw [heq]; simp, hr, hd⟩
            · exact Or.inr ⟨t, by rw [heq]; simp, ht⟩

/-- **C1.** For every run of `process_message(user_message, history)` —
i.e. for every environment `env`, user message and history — the emitted
event sequence consists of progress events followed by exactly one
terminal: either a single `done` immediately after the unique `response`,
or a single `error` as the last event; never both terminals, never
neither, and no event of any kind follows the terminal event. -/
theorem process_message_terminates_cleanly (env : Env) (u : String)
    (history : List ChatMessage) :
    cleanTermination (processMessage env u history) := by
  cases h : env.initResult with
  | error e =>
      rw [processMessage_initError env u history e h]
      refine ⟨[thinkingEvent], ?_,
        Or.inr ⟨errorEvent ("An error occurred: " ++ e), rfl, rfl⟩⟩
      intro e' he'
      simp at he'
      subst he'
      rfl
  | ok tools =>
      rw [processMessage_initOk env u history tools h]
      obtain ⟨pre, hpre, hshape⟩ :=
        runLoop_cleanTermination env tools MAX_TOOL_ITERATIONS
          (history ++ [userMessageTurn u])
      refine ⟨thinkingEvent :: pre, ?_, ?_⟩
      · intro e' he'
        rcases List.mem_cons.mp he' with he' | he'
        · subst he'; rfl
        · exact hpre e' he'
      · rcases hshape with ⟨r, d, heq, hr, hd⟩ | ⟨t, heq, ht⟩
        · exact Or.inl ⟨r, d, by rw [heq]; simp, hr, hd⟩
        · exact Or.inr ⟨t, by rw [heq]; simp, ht⟩

/-! ### C2: the iteration cap -/

theorem runLoopIters_succ_toolCalls (env : Env) (tools : List McpTool)
    (f : Nat) (ms : List ChatMessage) (cs : List ToolCall)
    (h : env.llmChat ms tools = .toolCallsResponse cs) :
    runLoopIters env tools (f + 1) ms =
      1 + runLoopIters env tools f
            (execCalls env cs (ms ++ [assistantToolCallMsg cs])).2 := by
  simp [runLoopIters, h]

/-- Under an LLM that always requests tool calls, the loop performs one
LLM call per unit of fuel. -/
theorem runLoopIters_all_toolCalls (env : Env) (tools : List McpTool)
    (hllm : ∀ ms, ∃ cs, env.llmChat ms tools = .toolCallsResponse cs) :
    ∀ (fuel : Nat) (ms : List ChatMessage),
      runLoopIters env tools fuel ms = fuel := by
  intro fuel
  induction fuel with
  | zero => intro ms; rfl
  | succ f ih =>
      intro ms
      obtain ⟨cs, h⟩ := hllm ms
      rw [runLoopIters_succ_toolCalls env tools f ms cs h, ih]
      omega

/-- Under an LLM that always requests tool calls, the loop's events are
progress events closed by the max-iterations error. -/
theorem runLoop_all_toolCalls (env : Env) (tools : List McpTool)
    (hllm : ∀ ms, ∃ cs, env.llmChat ms tools = .toolCallsResponse cs) :
    ∀ (fuel : Nat) (ms : List ChatMessage),
      ∃ pre, (∀ e ∈ pre, progressEvent e = true) ∧
        runLoop env tools fuel ms =
          pre ++
            [errorEvent "Maximum tool iterations reached. Please try again."] := by
  intro fuel
  induction fuel with
  | zero => intro ms; exact ⟨[], by simp, by simp [runLoop_zero]⟩
  | succ f ih =>
      intro ms
      obtain ⟨cs, h⟩ := hllm ms
      obtain ⟨pre, hpre, heq⟩ :=
        ih (execCalls env cs (ms ++ [assistantToolCallMsg cs])).2
      refine ⟨(execCalls env cs (ms ++ [assistantToolCallMsg cs])).1 ++ pre,
        ?_, ?_⟩
      · intro e he
        rcases List.mem_append.mp he with he | he
        · exact execCalls_progress env cs _ e he
        · exact hpre e he
      · rw [runLoop_succ_toolCalls env tools f ms cs h, heq]
        simp

/-- A progress event is not a `response`, `error` or `done` event. -/
theorem progressEvent_type_ne (e : OrchestratorEvent)
    (h : progressEvent e = true) :
    e.type ≠ EventType.response ∧ e.type ≠ EventType.error ∧
      e.type ≠ EventType.done := by
  unfold progressEvent at h
  rcases e with ⟨t, _, _, _, _⟩
  cases t <;> simp_all

/-- **C2.** If the LLM classifies every turn as tool-calls (and every tool
call succeeds), `process_message` performs exactly 10 loop iterations —
hence 10 LLM calls — and then emits a single `error` event carrying the
"Maximum tool iterations reached" text as the last event, with no `done`
event; the cap is the fixed constant `MAX_TOOL_ITERATIONS = 10`
(`process_message` accepts no cap argument). -/
theorem iteration_cap_reached (env : Env) (u : String)
    (history : List ChatMessage) (tools : List McpTool)
    (hinit : env.initResult = .ok tools)
    (hllm : ∀ ms, ∃ cs, env.llmChat ms tools = .toolCallsResponse cs)
    (_htool : ∀ ms n a, ∃ r, env.callTool ms n a = .ok r ∧
        r.is_error = false) :
    MAX_TOOL_ITERATIONS = 10 ∧
    runLoopIters env tools MAX_TOOL_ITERATIONS
      (history ++ [userMessageTurn u]) = 10 ∧
    (processMessage env u history).getLast? =
      some (errorEvent "Maximum tool iterations reached. Please try again.") ∧
    List.countP (fun e => decide (e.type = EventType.error))
      (processMessage env u history) = 1 ∧
    List.countP (fun e => decide (e.type = EventType.done))
      (processMessage env u history) = 0 := by
  obtain ⟨pre, hpre, heq⟩ :=
    runLoop_all_toolCalls env tools hllm MAX_TOOL_ITERATIONS
      (history ++ [userMessageTurn u])
  rw [processMessage_initOk env u history tools hinit, heq]
  have hcount : ∀ (p : OrchestratorEvent → Bool),
      (∀ e, progressEvent e = true → p e = false) →
      List.countP p pre = 0 := by
    intro p hp
    refine List.countP_eq_zero.mpr ?_
    intro e he
    simp [hp e (hpre e he)]
  refine ⟨rfl, runLoopIters_all_toolCalls env tools hllm _ _, ?_, ?_, ?_⟩
  · rw [show thinkingEvent :: (pre ++
        [errorEvent "Maximum tool iterations reached. Please try again."]) =
        (thinkingEvent :: pre) ++
          [errorEvent "Maximum tool iterations reached. Please try again."]
      from rfl]
    exact List.getLast?_concat _
  · simp only [List.countP_cons, List.countP_append]
    rw [hcount _ (fun e he => by
      simp [(progressEvent_type_ne e he).2.1])]
    simp [thinkingEvent, errorEvent]
  · simp only [List.countP_cons, List.countP_append]
    rw [hcount _ (fun e he => by
      simp [(progressEvent_type_ne e he).2.2])]
    simp [thinkingEvent, errorEvent]

/-- A stub environment whose LLM always requests (zero) tool calls and
whose tools always succeed. -/
def stubAlwaysToolCalls : Env where
  initResult := .ok []
  llmChat := fun _ _ => .toolCallsResponse []
  callTool := fun _ _ _ => .ok { content := [], is_error := false }

/-- Witness for `iteration_cap_reached` at a concrete stub environment. -/
theorem iteration_cap_reached_witness :
    MAX_TOOL_ITERATIONS = 10 ∧
    runLoopIters stubAlwaysToolCalls [] MAX_TOOL_ITERATIONS
      ([] ++ [userMessageTurn "hi"]) = 10 ∧
    (processMessage stubAlwaysToolCalls "hi" []).getLast? =
      some (errorEvent "Maximum tool iterations reached. Please try again.") ∧
    List.countP (fun e => decide (e.type = EventType.error))
      (processMessage stubAlwaysToolCalls "hi" []) = 1 ∧
    List.countP (fun e => decide (e.type = EventType.done))
      (processMessage stubAlwaysToolCalls "hi" []) = 0 :=
  iteration_cap_reached stubAlwaysToolCalls "hi" [] [] rfl
    (fun _ => ⟨[], rfl⟩)
    (fun _ _ _ => ⟨{ content := [], is_error := false }, rfl, rfl⟩)

/-! ### C3: one start/completion pair per requested call, in order -/

theorem execCalls_cons (env : Env) (c : ToolCall) (rest : List ToolCall)
    (ms : List ChatMessage) :
    execCalls env (c :: rest) ms =
      ((execOneCall env c ms).1 ++
         (execCalls env rest (execOneCall env c ms).2).1,
       (execCalls env rest (execOneCall env c ms).2).2) := rfl

/-- The completion event of a call is `tool_complete` or `tool_error` and
carries the call's tool name. -/
theorem completionEvent_shape (n : String)
    (o : Except String McpToolResult) :
    ((completionEvent n o).type = EventType.toolComplete ∨
      (completionEvent n o).type = EventType.toolError) ∧
    (completionEvent n o).name = some n := by
  cases o with
  | ok r =>
      by_cases hr : r.is_error <;>
        simp [completionEvent, hr, toolErrorEvent, toolCompleteEvent]
  | error e => simp [completionEvent, toolErrorEvent]

/-- Interleaving of `tool_start` events with per-call closing events:
for each pair, the start event of the call followed by its completion. -/
def startEndPairs : List (ToolCall × OrchestratorEvent) →
    List OrchestratorEvent
  | [] => []
  | (c, e) :: rest => toolStartEvent c :: e :: startEndPairs rest

/-- **C3.** For every tool-calls batch handled in one loop iteration, the
orchestrator emits exactly one `tool_start` per requested call, in the
order the LLM produced the calls, and each `tool_start` is immediately
followed by exactly one `tool_complete`/`tool_error` event carrying the
same tool name, before the next `tool_start` of the batch. -/
theorem tool_batch_events (env : Env) (cs : List ToolCall)
    (ms : List ChatMessage) :
    ∃ ends : List OrchestratorEvent,
      ends.length = cs.length ∧
      (execCalls env cs ms).1 = startEndPairs (cs.zip ends) ∧
      ∀ p ∈ cs.zip ends,
        (p.2.type = EventType.toolComplete ∨
          p.2.type = EventType.toolError) ∧
        p.2.name = some p.1.name := by
  induction cs generalizing ms with
  | nil => exact ⟨[], rfl, rfl, by simp⟩
  | cons c rest ih =>
      obtain ⟨ends, hlen, heq, hprop⟩ := ih (execOneCall env c ms).2
      refine ⟨completionEvent c.name (env.callTool ms c.name c.arguments)
          :: ends, by simp [hlen], ?_, ?_⟩
      · rw [execCalls_cons]
        show (execOneCall env c ms).1 ++
            (execCalls env rest (execOneCall env c ms).2).1 = _
        rw [heq]
        rfl
      · intro p hp
        simp only [List.zip_cons_cons, List.mem_cons] at hp
        rcases hp with rfl | hp
        · exact completionEvent_shape c.name _
        · exact hprop p hp

/-! ### C4: a thrown tool call is surfaced and the run continues -/

/-- **C4.** When `call_tool` raises (transport/protocol failure) with
`cause`, the orchestrator emits `tool_error` with result
`"Tool execution failed: <cause>"`, appends a tool-role turn carrying that
same text and the originating call's id, and the run continues: the
remaining calls of the batch are executed and the loop proceeds to the
next LLM iteration. -/
theorem tool_transport_error_continues (env : Env) (tools : List McpTool)
    (f : Nat) (ms : List ChatMessage) (c : ToolCall) (rest : List ToolCall)
    (cause : String)
    (hllm : env.llmChat ms tools = .toolCallsResponse (c :: rest))
    (hfail : env.callTool (ms ++ [assistantToolCallMsg (c :: rest)])
        c.name c.arguments = .error cause) :
    runLoop env tools (f + 1) ms =
      toolStartEvent c ::
      toolErrorEvent c.name ("Tool execution failed: " ++ cause) ::
      ((execCalls env rest
          (ms ++ [assistantToolCallMsg (c :: rest)] ++
            [toolResultMsg ("Tool execution failed: " ++ cause) c.id])).1
        ++ runLoop env tools f
            (execCalls env rest
              (ms ++ [assistantToolCallMsg (c :: rest)] ++
                [toolResultMsg ("Tool execution failed: " ++ cause) c.id])).2) := by
  rw [runLoop_succ_toolCalls env tools f ms (c :: rest) hllm, execCalls_cons]
  simp only [execOneCall, hfail, completionEvent, completionText]
  simp

/-- Environment for the `tool_transport_error_continues` witness: the
first LLM turn requests one call, every tool call raises. -/
def stubTransportFailure : Env where
  initResult := .ok []
  llmChat := fun ms _ =>
    if ms.length ≤ 1 then
      .toolCallsResponse [{ id := "call-1", name := "get_fare", arguments := [] }]
    else .textResponse "done"
  callTool := fun _ _ _ => .error "connection reset"

/-- Witness for `tool_transport_error_continues` at a concrete
environment and call. -/
theorem tool_transport_error_continues_witness :
    runLoop stubTransportFailure [] (0 + 1) [userMessageTurn "hi"] =
      toolStartEvent { id := "call-1", name := "get_fare", arguments := [] } ::
      toolErrorEvent "get_fare" ("Tool execution failed: " ++ "connection reset") ::
      ((execCalls stubTransportFailure []
          ([userMessageTurn "hi"] ++
            [assistantToolCallMsg
              [{ id := "call-1", name := "get_fare", arguments := [] }]] ++
            [toolResultMsg ("Tool execution failed: " ++ "connection reset")
              "call-1"])).1
        ++ runLoop stubTransportFailure [] 0
            (execCalls stubTransportFailure []
              ([userMessageTurn "hi"] ++
                [assistantToolCallMsg
                  [{ id := "call-1", name := "get_fare", arguments := [] }]] ++
                [toolResultMsg
                  ("Tool execution failed: " ++ "connection reset")
                  "call-1"])).2) :=
  tool_transport_error_continues stubTransportFailure [] 0
    [userMessageTurn "hi"]
    { id := "call-1", name := "get_fare", arguments := [] } []
    "connection reset" rfl rfl

/-! ## LLM reply classification (`app/llm_client.py`, lines 130-157) -/

/-- One function call carried by the provider reply
(`message.tool_calls[i]`): the arguments arrive as a JSON text blob. -/
structure ProviderToolCall where
  id : String
  name : String
  argumentsJson : String
deriving DecidableEq, Repr

/-- The provider reply message (`response.choices[0].message`): a possibly
empty list of requested function calls (the empty list models a falsy
`tool_calls`) and optional text content. -/
structure ProviderMessage where
  tool_calls : List ProviderToolCall
  content : Option String
deriving DecidableEq, Repr

/-- llm_client.py lines 134-157: classify the provider reply.  The
standard-library JSON decoder is an external collaborator passed in as
`jsonParse`; a raised `json.JSONDecodeError` is modelled as `none`, so the
`try/except` of lines 138-141 becomes `Option.getD []`.  A falsy
`message.content` yields the empty string (line 155). -/
def classifyReply (jsonParse : String → Option ArgMap)
    (m : ProviderMessage) : LlmResponse :=
  if m.tool_calls ≠ [] then
    .toolCallsResponse (m.tool_calls.map (fun tc =>
      { id := tc.id, name := tc.name,
        arguments := (jsonParse tc.argumentsJson).getD [] }))
  else
    .textResponse (m.content.getD "")

/-- **C8.** If the provider reply carries a function call whose argument
JSON is un-parseable, `chat` classifies it as a tool-calls result with
empty arguments for that call (no failure is raised — `classifyReply` is
total), and the orchestrator run proceeds to invoke that tool with the
empty argument map and then continues, rather than aborting. -/
theorem malformed_arguments_tolerated
    (jsonParse : String → Option ArgMap) (m : ProviderMessage)
    (tc : ProviderToolCall) (hm : m.tool_calls = [tc])
    (hbad : jsonParse tc.argumentsJson = none)
    (env : Env) (tools : List McpTool) (f : Nat) (ms : List ChatMessage)
    (henv : env.llmChat ms tools = classifyReply jsonParse m) :
    classifyReply jsonParse m =
      .toolCallsResponse [{ id := tc.id, name := tc.name, arguments := [] }] ∧
    runLoop env tools (f + 1) ms =
      toolStartEvent { id := tc.id, name := tc.name, arguments := [] } ::
      completionEvent tc.name
        (env.callTool
          (ms ++ [assistantToolCallMsg
            [{ id := tc.id, name := tc.name, arguments := [] }]])
          tc.name []) ::
      runLoop env tools f
        (ms ++ [assistantToolCallMsg
            [{ id := tc.id, name := tc.name, arguments := [] }]] ++
          [toolResultMsg
            (completionText (env.callTool
              (ms ++ [assistantToolCallMsg
                [{ id := tc.id, name := tc.name, arguments := [] }]])
              tc.name []))
            tc.id]) := by
  have hclass : classifyReply jsonParse m =
      .toolCallsResponse [{ id := tc.id, name := tc.name, arguments := [] }] := by
    simp [classifyReply, hm, hbad]
  refine ⟨hclass, ?_⟩
  rw [runLoop_succ_toolCalls env tools f ms _ (henv.trans hclass),
    execCalls_cons]
  simp [execCalls, execOneCall]

/-- Environment for the `malformed_arguments_tolerated` witness. -/
def stubMalformedArgs : Env where
  initResult := .ok []
  llmChat := fun _ _ =>
    .toolCallsResponse [{ id := "c1", name := "get_fare", arguments := [] }]
  callTool := fun _ _ _ => .ok { content := [], is_error := false }

/-- The provider reply for the witness: one call with un-parseable
argument JSON. -/
def malformedReply : ProviderMessage :=
  { tool_calls :=
      [{ id := "c1", name := "get_fare", argumentsJson := "not json" }],
    content := none }

/-- Witness for `malformed_arguments_tolerated` at a concrete parser,
reply and environment. -/
theorem malformed_arguments_tolerated_witness :
    classifyReply (fun _ => none) malformedReply =
      .toolCallsResponse [{ id := "c1", name := "get_fare", arguments := [] }] ∧
    runLoop stubMalformedArgs [] (0 + 1) [] =
      toolStartEvent { id := "c1", name := "get_fare", arguments := [] } ::
      completionEvent "get_fare"
        (stubMalformedArgs.callTool
          ([] ++ [assistantToolCallMsg
            [{ id := "c1", name := "get_fare", arguments := [] }]])
          "get_fare" []) ::
      runLoop stubMalformedArgs [] 0
        ([] ++ [assistantToolCallMsg
            [{ id := "c1", name := "get_fare", arguments := [] }]] ++
          [toolResultMsg
            (completionText (stubMalformedArgs.callTool
              ([] ++ [assistantToolCallMsg
                [{ id := "c1", name := "get_fare", arguments := [] }]])
              "get_fare" []))
            "c1"]) :=
  malformed_arguments_tolerated (fun _ => none) malformedReply
    { id := "c1", name := "get_fare", argumentsJson := "not json" }
    rfl rfl stubMalformedArgs [] 0 [] rfl

/-! ### C9: the flattened result string -/

/-- Modelled from the spec's words (§3 ToolResult): the result's "text
content parts are joined with newline" — every present text part,
including empty ones, joined with `"\n"`.  Compare `resultText`, the
translation of orchestrator.py lines 135-137, which additionally drops
empty text parts (Python truthiness of `if c.text`). -/
def specFlattenedText (content : List McpContent) : String :=
  String.intercalate "\n" (content.filterMap McpContent.text)

/-- A tool result whose first text part is present but empty. -/
def emptyPartResult : McpToolResult :=
  { content := [{ type := "text", text := some "" },
                { type := "text", text := some "fare: 1200" }],
    is_error := false }

/-- Environment whose tool calls return `emptyPartResult`. -/
def stubEmptyPart : Env where
  initResult := .ok []
  llmChat := fun _ _ => .textResponse ""
  callTool := fun _ _ _ => .ok emptyPartResult

/-- **C9 counterexample.** On a successful result containing an empty
text part, the string stored into the appended tool-role turn (and carried
by the completion event) is `"fare: 1200"`, while the result's text
content parts joined with newline give `"\nfare: 1200"`: the claim's
equality fails because the code drops empty text parts. -/
theorem flattened_text_counterexample :
    (execOneCall stubEmptyPart
        { id := "c1", name := "get_fare", arguments := [] } []).2 =
      [toolResultMsg "fare: 1200" "c1"] ∧
    (execOneCall stubEmptyPart
        { id := "c1", name := "get_fare", arguments := [] } []).1 =
      [toolStartEvent { id := "c1", name := "get_fare", arguments := [] },
       toolCompleteEvent "get_fare" "fare: 1200"] ∧
    specFlattenedText emptyPartResult.content = "\nfare: 1200" ∧
    ("fare: 1200" : String) ≠ "\nfare: 1200" := by
  refine ⟨?_, ?_, ?_, by decide⟩ <;> rfl

/-- **C9 (amended).** For every successful `call_tool` result, the
flattened string stored into the appended tool-role turn and carried by
the `tool_complete`/`tool_error` event equals the result's present and
**non-empty** text content parts joined with newline (`resultText`);
parts with absent or empty text are skipped. -/
theorem flattened_result_text (env : Env) (c : ToolCall)
    (ms : List ChatMessage) (r : McpToolResult)
    (hok : env.callTool ms c.name c.arguments = .ok r) :
    (execOneCall env c ms).2 =
      ms ++ [toolResultMsg (resultText r.content) c.id] ∧
    (execOneCall env c ms).1 =
      [toolStartEvent c,
       if r.is_error then toolErrorEvent c.name (resultText r.content)
       else toolCompleteEvent c.name (resultText r.content)] ∧
    resultText r.content =
      String.intercalate "\n"
        ((r.content.filterMap McpContent.text).filter (fun t => t ≠ "")) := by
  refine ⟨?_, ?_, rfl⟩ <;> simp [execOneCall, hok, completionText, completionEvent]

/-- Witness for `flattened_result_text` at a concrete environment. -/
theorem flattened_result_text_witness :
    (execOneCall stubEmptyPart
        { id := "c1", name := "get_fare", arguments := [] } []).2 =
      [] ++ [toolResultMsg (resultText emptyPartResult.content) "c1"] ∧
    (execOneCall stubEmptyPart
        { id := "c1", name := "get_fare", arguments := [] } []).1 =
      [toolStartEvent { id := "c1", name := "get_fare", arguments := [] },
       if emptyPartResult.is_error then
         toolErrorEvent "get_fare" (resultText emptyPartResult.content)
       else toolCompleteEvent "get_fare" (resultText emptyPartResult.content)] ∧
    resultText emptyPartResult.content =
      String.intercalate "\n"
        ((emptyPartResult.content.filterMap McpContent.text).filter
          (fun t => t ≠ "")) :=
  flattened_result_text stubEmptyPart
    { id := "c1", name := "get_fare", arguments := [] } [] emptyPartResult rfl

/-! ## C10: the caller's history list is not mutated

Python lists are mutable heap objects, so the frame property "the run
leaves `history` unchanged" is stated against a small heap of list
objects: `messages = list(history)` (orchestrator.py line 70) allocates a
fresh cell holding a copy of the history object's contents, and every
`messages.append(...)` mutates that fresh cell in place.  Had line 70
aliased (`messages = history`), the translation would reuse the caller's
reference and the theorem below would fail.  The event stream is
irrelevant to the frame property and omitted; the control flow and the
appended turns are exactly those of `runLoop`/`execCalls`. -/

/-- A heap of Python list objects holding chat messages; a reference is an
index into `cells`. -/
structure PyHeap where
  cells : List (List ChatMessage)
deriving Repr

/-- Dereference (an unallocated reference reads as `[]`). -/
def readRef (h : PyHeap) (r : Nat) : List ChatMessage :=
  (h.cells[r]?).getD []

/-- `list(other)` — allocate a fresh list object with a copy of the given
contents, returning the new heap and the fresh reference. -/
def allocList (h : PyHeap) (v : List ChatMessage) : PyHeap × Nat :=
  (⟨h.cells ++ [v]⟩, h.cells.length)

/-- `lst.append(m)` — in-place mutation of the referenced cell. -/
def appendRef (h : PyHeap) (r : Nat) (m : ChatMessage) : PyHeap :=
  ⟨h.cells.set r (readRef h r ++ [m])⟩

/-- The tool-call batch of lines 121-178 over the heap, appending each
call's tool-role turn to the working list in place. -/
def execCallsH (env : Env) (cs : List ToolCall) (h : PyHeap) (mr : Nat) :
    PyHeap :=
  match cs with
  | [] => h
  | c :: rest =>
      execCallsH env rest
        (appendRef h mr
          (toolResultMsg
            (completionText
              (env.callTool (readRef h mr) c.name c.arguments))
            c.id))
        mr

/-- The `while` loop of lines 76-184 over the heap. -/
def runLoopH (env : Env) (tools : List McpTool) :
    Nat → PyHeap → Nat → PyHeap
  | 0, h, _ => h
  | fuel + 1, h, mr =>
      match env.llmChat (readRef h mr) tools with
      | .llmError _ => h
      | .textResponse _ => h
      | .toolCallsResponse cs =>
          runLoopH env tools fuel
            (execCallsH env cs
              (appendRef h mr (assistantToolCallMsg cs)) mr) mr

/-- `process_message` over the heap: after the init step,
`messages = list(history)` allocates the working list as a copy of the
caller's history object, the user turn is appended to the copy, and the
loop runs on the copy. -/
def processMessageH (env : Env) (u : String) (h : PyHeap)
    (historyRef : Nat) : PyHeap :=
  match env.initResult with
  | .error _ => h
  | .ok tools =>
      runLoopH env tools MAX_TOOL_ITERATIONS
        (appendRef (allocList h (readRef h historyRef)).1
          (allocList h (readRef h historyRef)).2 (userMessageTurn u))
        (allocList h (readRef h historyRef)).2

/-- Mutating one list object leaves every other object unchanged. -/
theorem readRef_appendRef_ne (h : PyHeap) (r mr : Nat) (m : ChatMessage)
    (hne : r ≠ mr) : readRef (appendRef h mr m) r = readRef h r := by
  simp [readRef, appendRef, List.getElem?_set_ne (by omega : mr ≠ r)]

/-- A batch only mutates the working list. -/
theorem execCallsH_readRef (env : Env) (cs : List ToolCall) (r : Nat) :
    ∀ (h : PyHeap) (mr : Nat), r ≠ mr →
      readRef (execCallsH env cs h mr) r = readRef h r := by
  induction cs with
  | nil => intro h mr _; rfl
  | cons c rest ih =>
      intro h mr hne
      show readRef (execCallsH env rest _ mr) r = readRef h r
      rw [ih _ mr hne, readRef_appendRef_ne h r mr _ hne]

/-- The loop only mutates the working list. -/
theorem runLoopH_readRef (env : Env) (tools : List McpTool) (r : Nat) :
    ∀ (fuel : Nat) (h : PyHeap) (mr : Nat), r ≠ mr →
      readRef (runLoopH env tools fuel h mr) r = readRef h r := by
  intro fuel
  induction fuel with
  | zero => intro h mr _; rfl
  | succ f ih =>
      intro h mr hne
      show readRef
        (match env.llmChat (readRef h mr) tools with
          | .llmError _ => h
          | .textResponse _ => h
          | .toolCallsResponse cs =>
              runLoopH env tools f
                (execCallsH env cs
                  (appendRef h mr (assistantToolCallMsg cs)) mr) mr) r =
        readRef h r
      cases env.llmChat (readRef h mr) tools with
      | llmError m => rfl
      | textResponse t => rfl
      | toolCallsResponse cs =>
          show readRef (runLoopH env tools f
            (execCallsH env cs
              (appendRef h mr (assistantToolCallMsg cs)) mr) mr) r =
            readRef h r
          rw [ih _ mr hne, execCallsH_readRef env cs r _ mr hne,
            readRef_appendRef_ne h r mr _ hne]

/-- **C10.** For every run of `process_message(user_message, history)` the
caller-supplied history list object is left unchanged: the orchestrator
copies it into its own freshly allocated working list before appending the
user message, assistant turns and tool-result turns, so all appends affect
only the copy. -/
theorem history_not_mutated (env : Env) (u : String) (h : PyHeap)
    (r : Nat) (hr : r < h.cells.length) :
    readRef (processMessageH env u h r) r = readRef h r := by
  unfold processMessageH
  cases env.initResult with
  | error e => rfl
  | ok tools =>
      have hne : r ≠ h.cells.length := by omega
      have hne' : r ≠ (allocList h (readRef h r)).2 := hne
      show readRef
        (runLoopH env tools MAX_TOOL_ITERATIONS
          (appendRef (allocList h (readRef h r)).1
            (allocList h (readRef h r)).2 (userMessageTurn u))
          (allocList h (readRef h r)).2) r = readRef h r
      rw [runLoopH_readRef env tools r MAX_TOOL_ITERATIONS _ _ hne',
        readRef_appendRef_ne _ r _ _ hne']
      simp [allocList, readRef, List.getElem?_append, hr]

/-- Witness for `history_not_mutated` at a concrete heap holding one
history object. -/
theorem history_not_mutated_witness :
    0 < (PyHeap.mk [[userMessageTurn "old"]]).cells.length ∧
    readRef
      (processMessageH stubAlwaysToolCalls "hi"
        (PyHeap.mk [[userMessageTurn "old"]]) 0) 0 =
      readRef (PyHeap.mk [[userMessageTurn "old"]]) 0 :=
  ⟨by decide,
   history_not_mutated stubAlwaysToolCalls "hi"
     (PyHeap.mk [[userMessageTurn "old"]]) 0 (by decide)⟩

/-! ## The MCP client (`app/mcp_client.py`)

The client holds mutable session state and talks JSON-RPC 2.0 over HTTP.
Each operation is embedded as a state transition returning the value (or
the raised `McpException`), the successor state, and the list of wire
messages sent.  The remote server is an oracle answering each request;
responses are indexed by the request id, which strictly increases, so a
server can answer two occurrences of the same method differently.  The
constant headers (content type, API host/key, protocol version) are the
same on every message and carry no state; the session header also never
varies, because the source never assigns `_session_id`. -/

/-- A JSON-RPC error object as read by the client
(`response["error"].get("code" / "message", default)`): both fields may be
absent. -/
structure RpcError where
  code : Option Int
  message : Option String
deriving DecidableEq, Repr

/-- `McpException(code, message)`. -/
structure McpException where
  code : Int
  message : String
deriving DecidableEq, Repr

/-- Builds the exception with the source's defaults
(`.get("code", -1)`, `.get("message", "Unknown error")`). -/
def mkMcpException (e : RpcError) : McpException :=
  { code := e.code.getD (-1), message := e.message.getD "Unknown error" }

/-- One raw entry of a `tools/list` result (`result["tools"][i]`), fields
possibly absent. -/
structure RawTool where
  name : Option String
  description : Option String
  inputSchema : Option Schema
deriving DecidableEq, Repr

/-- One raw entry of a `tools/call` result content array. -/
structure RawContent where
  type : Option String
  text : Option String
deriving DecidableEq, Repr

/-- Raw `tools/call` result: `result.get("content", [])` (an absent array
is the empty list) and `result.get("isError", False)`. -/
structure RawCallResult where
  content : List RawContent
  isError : Option Bool
deriving DecidableEq, Repr

/-- Parameters of the JSON-RPC requests the client sends (`tools/list`
carries none). -/
inductive ReqParams
  | initParams (protocolVersion : String) (clientName : String)
      (clientVersion : String)
  | callParams (name : String) (arguments : List (String × Option String))
deriving DecidableEq, Repr

/-- One message sent to the server: a request carrying the id taken from
the request counter, or a notification (no id). -/
inductive WireMsg
  | request (id : Nat) (method : String) (params : Option ReqParams)
  | notification (method : String)
deriving DecidableEq, Repr

/-- The remote MCP server as an oracle.  For `initialize` the client only
distinguishes an error envelope (`some e`) from success; for the other
methods the answer is an error envelope or the parts of the result the
client reads. -/
structure ServerEnv where
  initResponse : Nat → Option RpcError
  listResponse : Nat → RpcError ⊕ List RawTool
  callResponse : Nat → String → List (String × Option String) →
      RpcError ⊕ RawCallResult

/-- The client's mutable state (`McpClient.__init__`, lines 29-34). -/
structure McpState where
  request_id : Nat
  is_initialized : Bool
  session_id : Option String
  cached_tools : List McpTool
deriving DecidableEq, Repr

/-- The state of a fresh client. -/
def freshState : McpState :=
  { request_id := 0, is_initialized := false, session_id := none,
    cached_tools := [] }

/-- Result of one client operation: returned value or raised exception,
successor state, and the wire messages sent. -/
structure OpResult (α : Type) where
  ret : Except McpException α
  state : McpState
  wire : List WireMsg
deriving Repr

/-- `MCP_PROTOCOL_VERSION` (config.py line 20). -/
def MCP_PROTOCOL_VERSION : String := "2025-03-26"

/-- `CLIENT_NAME` (mcp_client.py line 26). -/
def CLIENT_NAME : String := "RailChatbotBackend"

/-- `CLIENT_VERSION` (mcp_client.py line 27). -/
def CLIENT_VERSION : String := "1.0.0"

/-- The `initialize` request parameters (lines 42-49). -/
def initializeParams : ReqParams :=
  .initParams MCP_PROTOCOL_VERSION CLIENT_NAME CLIENT_VERSION

/-- `_send_request` increments the request counter before sending
(line 153). -/
def bumpId (s : McpState) : McpState :=
  { s with request_id := s.request_id + 1 }

/-- `McpClient.initialize` (lines 36-63): no-op when already initialized;
otherwise send the `initialize` request — `_send_request` increments the
request counter before sending — raise `McpException` on an error
envelope (leaving the flag false), else send the
`notifications/initialized` notification (a transport failure on it is
swallowed by lines 201-208 and cannot affect state, so it is not
distinguished) and mark the state initialized. -/
def initializeOp (srv : ServerEnv) (s : McpState) : OpResult Unit :=
  if s.is_initialized then
    { ret := .ok (), state := s, wire := [] }
  else
    match srv.initResponse (s.request_id + 1) with
    | some e =>
        { ret := .error (mkMcpException e),
          state := bumpId s,
          wire := [.request (s.request_id + 1) "initialize"
            (some initializeParams)] }
    | none =>
        { ret := .ok (),
          state := { bumpId s with is_initialized := true },
          wire := [.request (s.request_id + 1) "initialize"
              (some initializeParams),
            .notification "notifications/initialized"] }

/-- `_ensure_initialized` (lines 144-147). -/
def ensure_initialized (srv : ServerEnv) (s : McpState) : OpResult Unit :=
  if s.is_initialized then { ret := .ok (), state := s, wire := [] }
  else initializeOp srv s

/-- Mapping of one raw tool entry (lines 83-90): `tool.get("name", "")`,
optional description and schema pass through. -/
def mapRawTool (t : RawTool) : McpTool :=
  { name := t.name.getD "", description := t.description,
    input_schema := t.inputSchema }

/-- `McpClient.list_tools` (lines 65-93): ensure initialization
(propagating its exception); return the cache if non-empty
(`if self._cached_tools:`); otherwise issue `tools/list`, raise on an
error envelope, else map the raw entries, cache and return them. -/
def list_tools (srv : ServerEnv) (s : McpState) : OpResult (List McpTool) :=
  match (ensure_initialized srv s).ret with
  | .error e =>
      { ret := .error e, state := (ensure_initialized srv s).state,
        wire := (ensure_initialized srv s).wire }
  | .ok _ =>
      if (ensure_initialized srv s).state.cached_tools ≠ [] then
        { ret := .ok (ensure_initialized srv s).state.cached_tools,
          state := (ensure_initialized srv s).state,
          wire := (ensure_initialized srv s).wire }
      else
        match srv.listResponse
            ((ensure_initialized srv s).state.request_id + 1) with
        | .inl e =>
            { ret := .error (mkMcpException e),
              state := bumpId (ensure_initialized srv s).state,
              wire := (ensure_initialized srv s).wire ++
                [.request ((ensure_initialized srv s).state.request_id + 1)
                  "tools/list" none] }
        | .inr raw =>
            { ret := .ok (raw.map mapRawTool),
              state := { bumpId (ensure_initialized srv s).state with cached_tools := raw.map mapRawTool },
              wire := (ensure_initialized srv s).wire ++
                [.request ((ensure_initialized srv s).state.request_id + 1)
                  "tools/list" none] }

/-- The per-value coercion of lines 102-104:
`str(v) if v is not None else None`. -/
def coerceArg : ArgValue → Option String
  | .null => none
  | v => some (pyStr v)

/-- The argument-map coercion of lines 102-104. -/
def coerceArgs (args : ArgMap) : List (String × Option String) :=
  args.map (fun p => (p.1, coerceArg p.2))

/-- Mapping of one raw content entry (lines 121-127):
`content.get("type", "text")`, optional text passes through. -/
def mapRawContent (c : RawContent) : McpContent :=
  { type := c.type.getD "text", text := c.text }

/-- `McpClient.call_tool` (lines 95-131): ensure initialization, coerce
the arguments to text, send `tools/call`, raise on an error envelope,
else map the content array and `isError` (default `false`). -/
def call_tool (srv : ServerEnv) (s : McpState) (name : String)
    (arguments : ArgMap) : OpResult McpToolResult :=
  match (ensure_initialized srv s).ret with
  | .error e =>
      { ret := .error e, state := (ensure_initialized srv s).state,
        wire := (ensure_initialized srv s).wire }
  | .ok _ =>
      match srv.callResponse ((ensure_initialized srv s).state.request_id + 1)
          name (coerceArgs arguments) with
      | .inl e =>
          { ret := .error (mkMcpException e),
            state := bumpId (ensure_initialized srv s).state,
            wire := (ensure_initialized srv s).wire ++
              [.request ((ensure_initialized srv s).state.request_id + 1)
                "tools/call" (some (.callParams name (coerceArgs arguments)))] }
      | .inr raw =>
          { ret := .ok { content := raw.content.map mapRawContent, is_error := raw.isError.getD false },
            state := bumpId (ensure_initialized srv s).state,
            wire := (ensure_initialized srv s).wire ++
              [.request ((ensure_initialized srv s).state.request_id + 1)
                "tools/call" (some (.callParams name (coerceArgs arguments)))] }

/-- `is_connected` (lines 133-135). -/
def is_connected (s : McpState) : Bool := s.is_initialized

/-- `disconnect` (lines 137-142): resets the flag, the session id and the
tool cache (releasing the HTTP resource has no image in the state). -/
def disconnect (s : McpState) : McpState :=
  { s with is_initialized := false, session_id := none, cached_tools := [] }

/-! ### C5: idempotence of the handshake -/

/-- `initialize` on an already-initialized client is a no-op
(lines 38-40). -/
theorem initializeOp_noop (srv : ServerEnv) (s : McpState)
    (h : s.is_initialized = true) :
    initializeOp srv s = { ret := .ok (), state := s, wire := [] } := by
  simp [initializeOp, h]

/-- A server that rejects every `initialize` request. -/
def failingInitServer : ServerEnv where
  initResponse := fun _ =>
    some { code := some (-32000), message := some "boom" }
  listResponse := fun _ => .inr []
  callResponse := fun _ _ _ => .inr { content := [], isError := none }

/-- **C5 counterexample.** Against a server whose `initialize` fails, the
second `initialize` on a fresh client is not a no-op: the state after two
calls differs from the state after one (the request counter advances
again) and the second call sends handshake traffic — the claim's
unconditional idempotence fails because a failed handshake leaves the
flag false and is retried. -/
theorem initialize_idempotent_counterexample :
    (initializeOp failingInitServer
        (initializeOp failingInitServer freshState).state).state ≠
      (initializeOp failingInitServer freshState).state ∧
    (initializeOp failingInitServer
        (initializeOp failingInitServer freshState).state).wire ≠ [] := by
  refine ⟨?_, ?_⟩ <;> decide

/-- **C5 (amended).** Provided the first handshake succeeds (the server
answers the `initialize` request without an error envelope), `initialize`
is idempotent on a fresh client: the second call returns immediately with
the identical final state — initialized flag, session id, request counter
and tool cache all unchanged — and sends no JSON-RPC request or
notification. -/
theorem initialize_idempotent (srv : ServerEnv)
    (hsucc : srv.initResponse 1 = none) :
    initializeOp srv (initializeOp srv freshState).state =
      { ret := .ok (), state := (initializeOp srv freshState).state,
        wire := [] } := by
  have h1 : (initializeOp srv freshState).state.is_initialized = true := by
    simp [initializeOp, freshState, hsucc, bumpId]
  exact initializeOp_noop srv _ h1

/-- A server that accepts the handshake and serves one tool. -/
def okServer : ServerEnv where
  initResponse := fun _ => none
  listResponse := fun _ =>
    .inr [{ name := some "get_fare", description := none,
            inputSchema := none }]
  callResponse := fun _ _ _ => .inr { content := [], isError := none }

/-- Witness for `initialize_idempotent` at a concrete server. -/
theorem initialize_idempotent_witness :
    initializeOp okServer (initializeOp okServer freshState).state =
      { ret := .ok (), state := (initializeOp okServer freshState).state,
        wire := [] } :=
  initialize_idempotent okServer rfl

/-! ### C6: the tool-list cache -/

/-- When `_ensure_initialized` succeeds, the resulting state is
initialized and the tool cache is untouched. -/
theorem ensure_initialized_ok_state (srv : ServerEnv) (s : McpState)
    (h : ∃ u, (ensure_initialized srv s).ret = .ok u) :
    (ensure_initialized srv s).state.is_initialized = true ∧
    (ensure_initialized srv s).state.cached_tools = s.cached_tools := by
  obtain ⟨u, hu⟩ := h
  by_cases hs : s.is_initialized
  · simp [ensure_initialized, hs]
  · cases hr : srv.initResponse (s.request_id + 1) with
    | some e => simp [ensure_initialized, hs, initializeOp, hr] at hu
    | none => simp [ensure_initialized, hs, initializeOp, hr, bumpId]

/-- A successful `list_tools` leaves an initialized state whose cache
holds exactly the returned list. -/
theorem list_tools_ok_state (srv : ServerEnv) (s : McpState)
    (ts : List McpTool) (h1 : (list_tools srv s).ret = .ok ts) :
    (list_tools srv s).state.is_initialized = true ∧
    (list_tools srv s).state.cached_tools = ts := by
  cases he : (ensure_initialized srv s).ret with
  | error e => simp [list_tools, he] at h1
  | ok u =>
      obtain ⟨hinit, hcache⟩ := ensure_initialized_ok_state srv s ⟨u, he⟩
      by_cases hc : (ensure_initialized srv s).state.cached_tools = []
      · cases hl : srv.listResponse
            ((ensure_initialized srv s).state.request_id + 1) with
        | inl e => simp [list_tools, he, hc, hl] at h1
        | inr raw =>
            simp only [list_tools, he, hc] at h1 ⊢
            simp only [hl] at h1 ⊢
            simp [bumpId] at h1 ⊢
            exact ⟨hinit, h1⟩
      · simp only [list_tools, he] at h1 ⊢
        simp [hc] at h1 ⊢
        exact ⟨hinit, h1⟩

/-- `list_tools` on an initialized client with a non-empty cache returns
the cache, leaves the state unchanged, and sends nothing. -/
theorem list_tools_cache_hit (srv : ServerEnv) (st : McpState)
    (hinit : st.is_initialized = true) (hne : st.cached_tools ≠ []) :
    list_tools srv st =
      { ret := .ok st.cached_tools, state := st, wire := [] } := by
  have he : ensure_initialized srv st =
      { ret := .ok (), state := st, wire := [] } := by
    simp [ensure_initialized, hinit]
  simp [list_tools, he, hne]

/-- A server whose first `tools/list` answer (request id 2, after the
handshake's id 1) is empty and whose later answers carry one tool. -/
def emptyThenOneServer : ServerEnv where
  initResponse := fun _ => none
  listResponse := fun rid =>
    if rid = 2 then .inr []
    else .inr [{ name := some "get_fare", description := none,
                 inputSchema := none }]
  callResponse := fun _ _ _ => .inr { content := [], isError := none }

/-- **C6 counterexample.** On a fresh client, a first `list_tools` that
fetches an empty list is not cached effectively (the cache-hit guard is
`if self._cached_tools:`), so a second `list_tools` — with no disconnect
in between — issues a second `tools/list` round trip (request id 3) and
can return a different descriptor list: the claim's unconditional cache
property fails. -/
theorem list_tools_cached_counterexample :
    (list_tools emptyThenOneServer freshState).ret = .ok [] ∧
    (list_tools emptyThenOneServer
        (list_tools emptyThenOneServer freshState).state).ret =
      .ok [{ name := "get_fare", description := none,
             input_schema := none }] ∧
    ([] : List McpTool) ≠
      [{ name := "get_fare", description := none, input_schema := none }] ∧
    WireMsg.request 3 "tools/list" none ∈
      (list_tools emptyThenOneServer
        (list_tools emptyThenOneServer freshState).state).wire := by
  refine ⟨rfl, rfl, by decide, by decide⟩

/-- **C6 (amended).** If a `list_tools` call returns a non-empty
descriptor list `ts`, a second `list_tools` with no disconnect in between
returns the identical list, leaves the client state unchanged (the cache
is not repopulated), and sends nothing — no second `tools/list` round
trip. -/
theorem list_tools_cached (srv : ServerEnv) (s : McpState)
    (ts : List McpTool) (h1 : (list_tools srv s).ret = .ok ts)
    (hne : ts ≠ []) :
    list_tools srv (list_tools srv s).state =
      { ret := .ok ts, state := (list_tools srv s).state, wire := [] } := by
  obtain ⟨hinit, hcache⟩ := list_tools_ok_state srv s ts h1
  have h2 := list_tools_cache_hit srv (list_tools srv s).state hinit
    (by rw [hcache]; exact hne)
  rw [h2, hcache]

/-- Witness for `list_tools_cached` at a concrete server. -/
theorem list_tools_cached_witness :
    list_tools okServer (list_tools okServer freshState).state =
      { ret := .ok
          [{ name := "get_fare", description := none, input_schema := none }],
        state := (list_tools okServer freshState).state, wire := [] } :=
  list_tools_cached okServer freshState
    [{ name := "get_fare", description := none, input_schema := none }]
    rfl (by decide)

/-! ### C7: argument coercion -/

/-- **C7.** `call_tool` coerces every argument value to its textual
representation before sending: on an initialized client, the single
`tools/call` request carries the coerced argument map; in particular
`{"pnr": 12345, "flag": true, "x": null}` is sent as
`{"pnr": "12345", "flag": "True", "x": null}` — null values pass through
unchanged, every non-null value is stringified (`"True"` being Python's
`str(True)`). -/
theorem call_tool_coercion (srv : ServerEnv) (s : McpState)
    (toolName : String) (arguments : ArgMap)
    (hinit : s.is_initialized = true) :
    (call_tool srv s toolName arguments).wire =
      [WireMsg.request (s.request_id + 1) "tools/call"
        (some (.callParams toolName (coerceArgs arguments)))] ∧
    coerceArgs [("pnr", .int 12345), ("flag", .bool true), ("x", .null)] =
      [("pnr", some "12345"), ("flag", some "True"), ("x", none)] := by
  have he : ensure_initialized srv s =
      { ret := .ok (), state := s, wire := [] } := by
    simp [ensure_initialized, hinit]
  refine ⟨?_, by decide⟩
  cases hc : srv.callResponse (s.request_id + 1) toolName
      (coerceArgs arguments) with
  | inl e => simp [call_tool, he, hc]
  | inr raw => simp [call_tool, he, hc]

/-- An initialized client state, as left by a successful handshake. -/
def initializedState : McpState :=
  { request_id := 1, is_initialized := true, session_id := none,
    cached_tools := [] }

/-- Witness for `call_tool_coercion` at a concrete server, state and
argument map. -/
theorem call_tool_coercion_witness :
    (call_tool okServer initializedState "get_fare"
        [("pnr", .int 12345), ("flag", .bool true), ("x", .null)]).wire =
      [WireMsg.request (initializedState.request_id + 1) "tools/call"
        (some (.callParams "get_fare"
          (coerceArgs
            [("pnr", .int 12345), ("flag", .bool true), ("x", .null)])))] ∧
    coerceArgs [("pnr", .int 12345), ("flag", .bool true), ("x", .null)] =
      [("pnr", some "12345"), ("flag", some "True"), ("x", none)] :=
  call_tool_coercion okServer initializedState "get_fare"
    [("pnr", .int 12345), ("flag", .bool true), ("x", .null)] rfl
